import Mathlib

/-!
# Verification of the Databricks ADBC driver (rust) against its specification

Shallow embedding of `src/rust/src` of dbt-labs/databricks-adbc.
Rust `&mut self` methods become explicit state passing: each operation
returns a pair of its Rust return value and the successor state.
Machine integers (`usize`, `u64`) are modelled as `Nat`; none of the
embedded code paths can overflow them in ways the claims observe.
-/

/-! ## Error model (`src/rust/src/error.rs` and the driverbase helpers)

The driver builds every error through `DatabricksErrorHelper` constructor
calls (`not_implemented`, `set_unknown_option`, `get_unknown_option`,
`set_invalid_option`, `invalid_state`).  We embed an error as the
constructor that produced it together with the attached `.message` text,
which is exactly the information the source code puts into it. -/

inductive DriverError : Type
  | notImplemented (msg : String)
  | setUnknownOption (key : String)
  | getUnknownOption (key : String)
  | setInvalidOption (key : String)
  | invalidState (msg : String)
  deriving Repr, DecidableEq

/-- ADBC status codes (the subset reachable from the embedded code). -/
inductive AdbcStatus : Type
  | notImplemented
  | notFound
  | invalidState
  | invalidArguments
  deriving Repr, DecidableEq

/-- Status carried by each error once converted with `.to_adbc()`.
`not_implemented` maps to `Status::NotImplemented`: this mapping is pinned
by the repository's own test `test_error_to_adbc` in
`src/rust/src/error.rs`.  The unknown-option and invalid-option helpers
follow the ADBC convention used by driverbase (`NotFound` for unknown
options, `InvalidArguments` for a value of the wrong type). -/
def DriverError.status : DriverError → AdbcStatus
  | .notImplemented _ => .notImplemented
  | .setUnknownOption _ => .notFound
  | .getUnknownOption _ => .notFound
  | .setInvalidOption _ => .invalidArguments
  | .invalidState _ => .invalidState

/-- The driver's `Result<T>` alias. -/
abbrev DResult (α : Type) := Except DriverError α

/-! ## `src/rust/src/result/mod.rs` — `ResultSet`

`σ` stands for `SchemaRef` and `β` for `RecordBatch`; the driver treats
both as opaque payloads, so the embedding is polymorphic in them. -/

structure ResultSet (σ β : Type) where
  schema : Option σ
  batches : List β
  current_index : Nat
  deriving Repr, DecidableEq

/-- `ResultSet::empty()`. -/
def ResultSet.empty (σ β : Type) : ResultSet σ β :=
  { schema := none, batches := [], current_index := 0 }

/-- `ResultSet::new(schema, batches)`. -/
def ResultSet.new {σ β : Type} (s : σ) (bs : List β) : ResultSet σ β :=
  { schema := some s, batches := bs, current_index := 0 }

/-- `ResultSet::batch_count()`. -/
def ResultSet.batch_count {σ β : Type} (rs : ResultSet σ β) : Nat :=
  rs.batches.length

/-- `ResultSet::next_batch(&mut self) -> Result<Option<&RecordBatch>>`:
returns `Ok(None)` past the end, otherwise the batch at `current_index`
and increments the index. -/
def ResultSet.next_batch {σ β : Type} (rs : ResultSet σ β) :
    DResult (Option β) × ResultSet σ β :=
  if h : rs.current_index < rs.batches.length then
    (.ok (some (rs.batches.get ⟨rs.current_index, h⟩)),
      { rs with current_index := rs.current_index + 1 })
  else
    (.ok none, rs)

/-- `ResultSet::reset(&mut self)`: rewinds the iterator to the beginning. -/
def ResultSet.reset {σ β : Type} (rs : ResultSet σ β) : ResultSet σ β :=
  { rs with current_index := 0 }

/-- `ResultSet::close(&mut self) -> Result<()>`: clears the batches,
rewinds the index, returns `Ok(())`. -/
def ResultSet.close {σ β : Type} (rs : ResultSet σ β) :
    DResult Unit × ResultSet σ β :=
  (.ok (), { rs with batches := [], current_index := 0 })

/-- State after `n` successive `next_batch` calls (discarding outputs). -/
def ResultSet.pulls {σ β : Type} (rs : ResultSet σ β) : Nat → ResultSet σ β
  | 0 => rs
  | n + 1 => (ResultSet.pulls rs n).next_batch.2

lemma ResultSet.pulls_succ {σ β : Type} (rs : ResultSet σ β) (n : Nat) :
    rs.pulls (n + 1) = (rs.pulls n).next_batch.2 := rfl

lemma ResultSet.next_batch_batches {σ β : Type} (rs : ResultSet σ β) :
    rs.next_batch.2.batches = rs.batches := by
  unfold ResultSet.next_batch
  split <;> rfl

lemma ResultSet.next_batch_schema {σ β : Type} (rs : ResultSet σ β) :
    rs.next_batch.2.schema = rs.schema := by
  unfold ResultSet.next_batch
  split <;> rfl

lemma ResultSet.pulls_batches {σ β : Type} (rs : ResultSet σ β) (n : Nat) :
    (rs.pulls n).batches = rs.batches := by
  induction n with
  | zero => rfl
  | succ n ih => rw [ResultSet.pulls_succ, ResultSet.next_batch_batches, ih]

/-- After `n` pulls from a fresh result set the batches and schema are
untouched and the cursor sits at `min n (length batches)`. -/
lemma ResultSet.pulls_new {σ β : Type} (s : σ) (bs : List β) (n : Nat) :
    (ResultSet.new s bs).pulls n =
      { schema := some s, batches := bs, current_index := min n bs.length } := by
  induction n with
  | zero => simp [ResultSet.pulls, ResultSet.new]
  | succ n ih =>
      rw [ResultSet.pulls_succ, ih]
      unfold ResultSet.next_batch
      split
      · next h =>
          simp only at h ⊢
          congr 1
          omega
      · next h =>
          simp only at h ⊢
          congr 1
          omega

/-- C1 — The `n`-th pull (0-based) from `ResultSet::new(schema, batches)`
returns exactly `batches[n]` when `n` is in range and `Ok(None)` once all
batches are exhausted: batches are delivered in list order, none skipped,
none repeated, and end-of-stream follows the last one. -/
theorem resultset_next_batch_in_order {σ β : Type} (s : σ) (bs : List β)
    (n : Nat) :
    ((ResultSet.new s bs).pulls n).next_batch.1 = .ok bs[n]? := by
  rw [ResultSet.pulls_new]
  unfold ResultSet.next_batch
  split
  · next h =>
      simp only at h ⊢
      have hn : n < bs.length := by omega
      rw [List.getElem?_eq_getElem hn]
      have hfin : (⟨min n bs.length, h⟩ : Fin bs.length) = ⟨n, hn⟩ :=
        Fin.ext (by show min n bs.length = n; omega)
      rw [hfin]
      rfl
  · next h =>
      simp only at h
      have hn : bs.length ≤ n := by omega
      rw [List.getElem?_eq_none hn]

/-! ## Operation traces over a `ResultSet`

The public mutating surface of `ResultSet` is `next_batch`, `reset` and
`close`.  A trace of these operations models everything a caller can do
to one stream short of re-executing the statement. -/

inductive StreamOp : Type
  | next
  | reset
  | close
  deriving Repr, DecidableEq

/-- Run one public operation, keeping only the successor state. -/
def ResultSet.applyOp {σ β : Type} (rs : ResultSet σ β) : StreamOp → ResultSet σ β
  | .next => rs.next_batch.2
  | .reset => rs.reset
  | .close => rs.close.2

/-- Run a list of public operations left to right. -/
def ResultSet.runOps {σ β : Type} (rs : ResultSet σ β) : List StreamOp → ResultSet σ β
  | [] => rs
  | op :: ops => (rs.applyOp op).runOps ops

/-- C4 counterexample — a `ResultSet` over one batch that has already
reported end-of-stream (the second pull returned `Ok(None)`) yields that
batch again after a `reset()`: the stream is restartable through the
public API without re-executing the statement. -/
theorem resultset_restartable_after_reset :
    ((ResultSet.new () [0]).pulls 1).next_batch.1 = .ok none ∧
      ((((ResultSet.new () [0]).pulls 2).runOps [StreamOp.reset]).next_batch.1
        = .ok (some 0)) := by
  constructor <;> rfl

lemma ResultSet.next_batch_at_end {σ β : Type} (rs : ResultSet σ β)
    (h : rs.batches.length ≤ rs.current_index) :
    rs.next_batch = (.ok none, rs) := by
  unfold ResultSet.next_batch
  rw [dif_neg (by omega)]

/-- C4 (amended) — once `next_batch` has reported end-of-stream, every
further `next_batch` call with no intervening `reset` again returns
`Ok(None)` and leaves the stream unchanged; however, `reset()` rewinds the
same stream to the beginning, so a second pass does not require
re-executing the statement. -/
theorem resultset_none_after_end {σ β : Type} (rs : ResultSet σ β)
    (h : rs.batches.length ≤ rs.current_index) (n : Nat) :
    rs.pulls n = rs ∧ (rs.pulls n).next_batch.1 = .ok none ∧
      rs.reset = { rs with current_index := 0 } := by
  have hfix : rs.pulls n = rs := by
    induction n with
    | zero => rfl
    | succ n ih =>
        rw [ResultSet.pulls_succ, ih, ResultSet.next_batch_at_end rs h]
  refine ⟨hfix, ?_, rfl⟩
  rw [hfix, ResultSet.next_batch_at_end rs h]

/-- Witness for `resultset_none_after_end` at a concrete exhausted stream. -/
theorem resultset_none_after_end_witness :
    ({ schema := some (), batches := [7], current_index := 1 } :
        ResultSet Unit Nat).pulls 3 =
        { schema := some (), batches := [7], current_index := 1 } ∧
      (({ schema := some (), batches := [7], current_index := 1 } :
        ResultSet Unit Nat).pulls 3).next_batch.1 = .ok none ∧
      ({ schema := some (), batches := [7], current_index := 1 } :
        ResultSet Unit Nat).reset =
        { schema := some (), batches := [7], current_index := 0 } :=
  resultset_none_after_end
    { schema := some (), batches := [7], current_index := 1 } (by decide) 3

/-! ## `ResultSet::close` idempotence -/

/-- State after `n` successive `close` calls. -/
def ResultSet.closeIter {σ β : Type} (rs : ResultSet σ β) : Nat → ResultSet σ β
  | 0 => rs
  | n + 1 => (ResultSet.closeIter rs n).close.2

/-- C5 — `close` is idempotent: every call returns `Ok(())` (on any state,
including one already closed), and for every `n ≥ 1` the state after `n`
`close` calls equals the state after one. -/
theorem resultset_close_idempotent {σ β : Type} (rs : ResultSet σ β)
    (n : Nat) (h : 1 ≤ n) :
    rs.closeIter n = rs.close.2 ∧ rs.close.1 = .ok () ∧
      (rs.closeIter n).close.1 = .ok () := by
  refine ⟨?_, rfl, rfl⟩
  induction n with
  | zero => omega
  | succ n ih =>
      match n, ih with
      | 0, _ => rfl
      | n + 1, ih =>
          show ((rs.closeIter (n + 1)).close.2) = rs.close.2
          rw [ih (by omega)]
          rfl

/-- Witness for `resultset_close_idempotent`: three closes behave as one. -/
theorem resultset_close_idempotent_witness :
    ({ schema := some (), batches := [1, 2], current_index := 1 } :
        ResultSet Unit Nat).closeIter 3 =
        ({ schema := some (), batches := [1, 2], current_index := 1 } :
          ResultSet Unit Nat).close.2 ∧
      ({ schema := some (), batches := [1, 2], current_index := 1 } :
        ResultSet Unit Nat).close.1 = .ok () ∧
      (({ schema := some (), batches := [1, 2], current_index := 1 } :
        ResultSet Unit Nat).closeIter 3).close.1 = .ok () :=
  resultset_close_idempotent
    { schema := some (), batches := [1, 2], current_index := 1 } 3 (by decide)

/-! ## `src/rust/src/reader/cloudfetch.rs` — CloudFetch

The reader is a stub: `next_batch` returns `Ok(None)` past the end of the
link list and otherwise fails with the `not_implemented` error ("CloudFetch
download"); no download is ever started and nothing is ever buffered. -/

/-- Minimal model of an Arrow `RecordBatch` (the reader never builds one). -/
structure RecordBatch : Type where
  num_rows : Nat
  deriving Repr, DecidableEq

/-- `CloudFetchConfig` (all three fields are Rust `usize`). -/
structure CloudFetchConfig : Type where
  parallel_downloads : Nat
  prefetch_count : Nat
  max_buffer_size : Nat
  deriving Repr, DecidableEq

/-- `impl Default for CloudFetchConfig`. -/
def CloudFetchConfig.default : CloudFetchConfig :=
  { parallel_downloads := 3
    prefetch_count := 2
    max_buffer_size := 200 * 1024 * 1024 }

/-- `CloudFetchLink`. -/
structure CloudFetchLink : Type where
  url : String
  offset : Nat
  size : Nat
  deriving Repr, DecidableEq

/-- `CloudFetchReader`. -/
structure CloudFetchReader : Type where
  config : CloudFetchConfig
  links : List CloudFetchLink
  current_index : Nat
  deriving Repr, DecidableEq

/-- `CloudFetchReader::new(config, links)`. -/
def CloudFetchReader.new (config : CloudFetchConfig)
    (links : List CloudFetchLink) : CloudFetchReader :=
  { config := config, links := links, current_index := 0 }

/-- `CloudFetchReader::link_count()`. -/
def CloudFetchReader.link_count (r : CloudFetchReader) : Nat :=
  r.links.length

/-- `CloudFetchReader::next_batch(&mut self)`: `Ok(None)` once
`current_index` passes the link list, otherwise the stubbed
not-implemented error.  Neither branch touches the state. -/
def CloudFetchReader.next_batch (r : CloudFetchReader) :
    DResult (Option RecordBatch) × CloudFetchReader :=
  if r.current_index ≥ r.links.length then
    (.ok none, r)
  else
    (.error (.notImplemented "CloudFetch download"), r)

/-! ### Instrumented execution

To settle the resource claims we track, alongside the reader state, the
observables the spec bounds: fetches currently in flight, bytes of decoded
data buffered, and fetches ever attempted.  `next_batch` is the only
operation on a constructed reader; its body contains no download, no task
spawn and no buffering (the download path is the `TODO`), so a step leaves
all three counters exactly as they are — and `new` starts them at zero. -/

structure CloudFetchExec : Type where
  reader : CloudFetchReader
  in_flight : Nat
  buffered_bytes : Nat
  fetch_attempts : Nat
  deriving Repr, DecidableEq

/-- Execution state right after `CloudFetchReader::new`. -/
def CloudFetchExec.init (config : CloudFetchConfig)
    (links : List CloudFetchLink) : CloudFetchExec :=
  { reader := CloudFetchReader.new config links
    in_flight := 0
    buffered_bytes := 0
    fetch_attempts := 0 }

/-- One consumer call to `next_batch`: the reader advances per its source
and, since the source starts no fetch and buffers nothing, the counters
are unchanged. -/
def CloudFetchExec.step (e : CloudFetchExec) :
    DResult (Option RecordBatch) × CloudFetchExec :=
  (e.reader.next_batch.1, { e with reader := e.reader.next_batch.2 })

/-- Execution state after `n` consumer calls. -/
def CloudFetchExec.steps (e : CloudFetchExec) : Nat → CloudFetchExec
  | 0 => e
  | n + 1 => (CloudFetchExec.steps e n).step.2

lemma CloudFetchExec.step_counters (e : CloudFetchExec) :
    e.step.2.in_flight = e.in_flight ∧
      e.step.2.buffered_bytes = e.buffered_bytes ∧
      e.step.2.fetch_attempts = e.fetch_attempts :=
  ⟨rfl, rfl, rfl⟩

lemma CloudFetchExec.steps_counters (config : CloudFetchConfig)
    (links : List CloudFetchLink) (n : Nat) :
    ((CloudFetchExec.init config links).steps n).in_flight = 0 ∧
      ((CloudFetchExec.init config links).steps n).buffered_bytes = 0 ∧
      ((CloudFetchExec.init config links).steps n).fetch_attempts = 0 := by
  induction n with
  | zero => exact ⟨rfl, rfl, rfl⟩
  | succ n ih =>
      obtain ⟨h1, h2, h3⟩ := ih
      obtain ⟨s1, s2, s3⟩ :=
        CloudFetchExec.step_counters ((CloudFetchExec.init config links).steps n)
      exact ⟨by rw [CloudFetchExec.steps, s1, h1],
        by rw [CloudFetchExec.steps, s2, h2],
        by rw [CloudFetchExec.steps, s3, h3]⟩

/-- C2 — at every point of every execution (any configuration, any link
list, any number of consumer calls) the number of in-flight chunk fetches
is at most `parallel_downloads` and the buffered decoded bytes are at most
`max_buffer_size`.  In the current source both observables are identically
zero: the download path is unimplemented, so no fetch is ever in flight
and nothing is ever buffered. -/
theorem cloudfetch_resource_bounds (config : CloudFetchConfig)
    (links : List CloudFetchLink) (n : Nat) :
    ((CloudFetchExec.init config links).steps n).in_flight ≤
        config.parallel_downloads ∧
      ((CloudFetchExec.init config links).steps n).buffered_bytes ≤
        config.max_buffer_size := by
  obtain ⟨h1, h2, _⟩ := CloudFetchExec.steps_counters config links n
  rw [h1, h2]
  exact ⟨Nat.zero_le _, Nat.zero_le _⟩

lemma CloudFetchExec.steps_empty_reader (config : CloudFetchConfig)
    (n : Nat) :
    ((CloudFetchExec.init config []).steps n).reader =
      CloudFetchReader.new config [] := by
  induction n with
  | zero => rfl
  | succ n ih =>
      show ((CloudFetchExec.init config []).steps n).step.2.reader = _
      rw [CloudFetchExec.step, ih]
      rfl

/-- C3 — a `CloudFetchReader` built over an empty link list answers every
`next_batch` call (the first and all later ones) with `Ok(None)`, and no
fetch is ever attempted. -/
theorem cloudfetch_empty_links_end_of_stream (config : CloudFetchConfig)
    (n : Nat) :
    ((CloudFetchExec.init config []).steps n).step.1 = .ok none ∧
      ((CloudFetchExec.init config []).steps n).fetch_attempts = 0 := by
  constructor
  · show ((CloudFetchExec.init config []).steps n).reader.next_batch.1 = _
    rw [CloudFetchExec.steps_empty_reader]
    rfl
  · exact (CloudFetchExec.steps_counters config [] n).2.2

/-! ## `src/rust/src/statement.rs` — `Statement`

The struct holds only the SQL text.  Every optional ADBC operation is a
stub returning the `not_implemented` error with the message shown in the
source; `set_sql_query` and `cancel` are the only operations that return
`Ok`.  `&self` methods return just a value; `&mut self` methods also
return the successor state. -/

/-- Minimal model of an Arrow `Schema` (only ever an error payload here). -/
structure ArrowSchema : Type where
  fields : List String
  deriving Repr, DecidableEq

/-- Minimal model of `adbc_core::PartitionedResult` (error payload only). -/
structure PartitionedResult : Type where
  partitions : List (List Nat)
  deriving Repr, DecidableEq

structure Statement : Type where
  query : Option String
  deriving Repr, DecidableEq

/-- `Statement::new()` (the derived `Default`: no query). -/
def Statement.new : Statement := { query := none }

/-- `Statement::set_sql_query`. -/
def Statement.set_sql_query (st : Statement) (q : String) :
    DResult Unit × Statement :=
  (.ok (), { st with query := some q })

/-- `Statement::set_substrait_plan` (plan bytes as `List Nat`). -/
def Statement.set_substrait_plan (st : Statement) (_plan : List Nat) :
    DResult Unit × Statement :=
  (.error (.notImplemented "Substrait plans"), st)

/-- `Statement::prepare`. -/
def Statement.prepare (st : Statement) : DResult Unit × Statement :=
  (.error (.notImplemented "prepare"), st)

/-- `Statement::get_parameter_schema` (`&self`). -/
def Statement.get_parameter_schema (_st : Statement) : DResult ArrowSchema :=
  .error (.notImplemented "get_parameter_schema")

/-- `Statement::bind`. -/
def Statement.bind (st : Statement) (_batch : RecordBatch) :
    DResult Unit × Statement :=
  (.error (.notImplemented "bind parameters"), st)

/-- `Statement::bind_stream` (the stream as a list of batches). -/
def Statement.bind_stream (st : Statement) (_stream : List RecordBatch) :
    DResult Unit × Statement :=
  (.error (.notImplemented "bind_stream"), st)

/-- `Statement::execute` (a success would carry a batch reader). -/
def Statement.execute (st : Statement) :
    DResult (List RecordBatch) × Statement :=
  (.error (.notImplemented "execute"), st)

/-- `Statement::execute_update`. -/
def Statement.execute_update (st : Statement) :
    DResult (Option Int) × Statement :=
  (.error (.notImplemented "execute_update"), st)

/-- `Statement::execute_schema`. -/
def Statement.execute_schema (st : Statement) :
    DResult ArrowSchema × Statement :=
  (.error (.notImplemented "execute_schema"), st)

/-- `Statement::execute_partitions`. -/
def Statement.execute_partitions (st : Statement) :
    DResult PartitionedResult × Statement :=
  (.error (.notImplemented "execute_partitions"), st)

/-- `Statement::cancel`: unconditionally `Ok(())`, no remote call made. -/
def Statement.cancel (st : Statement) : DResult Unit × Statement :=
  (.ok (), st)

/-! ## `src/rust/src/connection.rs` — `Connection` (rollback only) -/

structure Connection : Type where
  uri : Option String
  http_path : Option String
  access_token : Option String
  catalog : Option String
  schema : Option String
  deriving Repr, DecidableEq

/-- `Connection::rollback`: always the `not_implemented` error. -/
def Connection.rollback (c : Connection) : DResult Unit × Connection :=
  (.error (.notImplemented "rollback - Databricks SQL is auto-commit only"), c)

/-- `true` iff the result is an error whose ADBC status is
`NotImplemented`. -/
def isNotImplementedError {α : Type} : DResult α → Bool
  | .error e => e.status = AdbcStatus.notImplemented
  | .ok _ => false

/-- C6 — `Statement::cancel` succeeds locally on every statement state:
it returns `Ok(())` and performs no remote call, so its result cannot
depend on network success. -/
theorem statement_cancel_always_ok (st : Statement) :
    st.cancel = (.ok (), st) := rfl

/-- C8 — every unsupported optional operation (`set_substrait_plan`,
`prepare`, `get_parameter_schema`, `bind`, `bind_stream`,
`execute_update`, `execute_schema`, `execute_partitions`, and
`Connection::rollback`) returns, on every receiver state and argument, an
error of ADBC status `NotImplemented` — never success, never another
error class. -/
theorem unsupported_operations_not_implemented (st : Statement)
    (plan : List Nat) (batch : RecordBatch) (stream : List RecordBatch)
    (c : Connection) :
    isNotImplementedError (st.set_substrait_plan plan).1 = true ∧
      isNotImplementedError (st.prepare).1 = true ∧
      isNotImplementedError (st.get_parameter_schema) = true ∧
      isNotImplementedError (st.bind batch).1 = true ∧
      isNotImplementedError (st.bind_stream stream).1 = true ∧
      isNotImplementedError (st.execute_update).1 = true ∧
      isNotImplementedError (st.execute_schema).1 = true ∧
      isNotImplementedError (st.execute_partitions).1 = true ∧
      isNotImplementedError (c.rollback).1 = true :=
  ⟨rfl, rfl, rfl, rfl, rfl, rfl, rfl, rfl, rfl⟩

/-! ## `src/rust/src/database.rs` — `Database`

`OptionDatabase` is the adbc_core key type — `Uri` plus the catch-all
`Other(String)` are the variants the driver matches on; `Username` and
`Password` stand in for the remaining variants caught by the final `_`
arm.  `OptionValue::Double` carries an `f64` whose payload the matched
code never inspects, so it is modelled payload-free. -/

inductive OptionDatabase : Type
  | uri
  | username
  | password
  | other (s : String)
  deriving Repr, DecidableEq

/-- The display name of a key (what the error helpers are handed). -/
def OptionDatabase.keyName : OptionDatabase → String
  | .uri => "uri"
  | .username => "username"
  | .password => "password"
  | .other s => s

inductive OptionValue : Type
  | string (s : String)
  | bytes (b : List Nat)
  | int (i : Int)
  | double
  deriving Repr, DecidableEq

structure Database : Type where
  uri : Option String
  http_path : Option String
  access_token : Option String
  catalog : Option String
  schema : Option String
  deriving Repr, DecidableEq

/-- `Database::new()` (the derived `Default`: all fields unset). -/
def Database.new : Database :=
  { uri := none, http_path := none, access_token := none,
    catalog := none, schema := none }

/-- `Database::set_option`: stores string values under `Uri`,
`databricks.http_path`, `databricks.access_token`, `databricks.catalog`,
`databricks.schema`; a recognized key with a non-string value is an
invalid-option error; anything else is an unknown-option error. -/
def Database.set_option (db : Database) (key : OptionDatabase)
    (value : OptionValue) : DResult Unit × Database :=
  match key with
  | .uri =>
      match value with
      | .string s => (.ok (), { db with uri := some s })
      | _ => (.error (.setInvalidOption "uri"), db)
  | .other s =>
      if s = "databricks.http_path" then
        match value with
        | .string v => (.ok (), { db with http_path := some v })
        | _ => (.error (.setInvalidOption s), db)
      else if s = "databricks.access_token" then
        match value with
        | .string v => (.ok (), { db with access_token := some v })
        | _ => (.error (.setInvalidOption s), db)
      else if s = "databricks.catalog" then
        match value with
        | .string v => (.ok (), { db with catalog := some v })
        | _ => (.error (.setInvalidOption s), db)
      else if s = "databricks.schema" then
        match value with
        | .string v => (.ok (), { db with schema := some v })
        | _ => (.error (.setInvalidOption s), db)
      else
        (.error (.setUnknownOption s), db)
  | _ => (.error (.setUnknownOption key.keyName), db)

/-- `Database::get_option_string`: reads back `Uri`,
`databricks.http_path`, `databricks.catalog`, `databricks.schema`
(invalid-state error when unset); every other key — including
`databricks.access_token`, which has no read arm — is an unknown-option
error. -/
def Database.get_option_string (db : Database) (key : OptionDatabase) :
    DResult String :=
  match key with
  | .uri =>
      match db.uri with
      | some v => .ok v
      | none => .error (.invalidState "option uri is not set")
  | .other s =>
      if s = "databricks.http_path" then
        match db.http_path with
        | some v => .ok v
        | none => .error (.invalidState "option databricks.http_path is not set")
      else if s = "databricks.catalog" then
        match db.catalog with
        | some v => .ok v
        | none => .error (.invalidState "option databricks.catalog is not set")
      else if s = "databricks.schema" then
        match db.schema with
        | some v => .ok v
        | none => .error (.invalidState "option databricks.schema is not set")
      else
        .error (.getUnknownOption s)
  | _ => .error (.getUnknownOption key.keyName)

/-- C7 counterexample — `set_option` does not succeed for the CloudFetch
tuning options: the keys for `parallel_downloads`, `prefetch_count` and
`max_buffer_size` all fall through to the unknown-option error, so the
claimed recognized-option set is wrong. -/
theorem database_cloudfetch_options_rejected :
    (Database.new.set_option (.other "databricks.parallel_downloads")
        (.string "4")).1
      = .error (.setUnknownOption "databricks.parallel_downloads") ∧
    (Database.new.set_option (.other "databricks.prefetch_count")
        (.string "4")).1
      = .error (.setUnknownOption "databricks.prefetch_count") ∧
    (Database.new.set_option (.other "databricks.max_buffer_size")
        (.string "1024")).1
      = .error (.setUnknownOption "databricks.max_buffer_size") := by
  refine ⟨?_, ?_, ?_⟩ <;> rfl

/-- C7 (amended) — `set_option` succeeds, for every string value, exactly
on the endpoint URI, `databricks.http_path`, `databricks.access_token`,
`databricks.catalog` and `databricks.schema`; every `Other` key outside
these four names (the CloudFetch tuning knobs included) gets the
unknown-option error, as do the remaining built-in key variants. -/
theorem database_set_option_recognized (db : Database) (v : String)
    (s : String) (value : OptionValue)
    (h1 : s ≠ "databricks.http_path") (h2 : s ≠ "databricks.access_token")
    (h3 : s ≠ "databricks.catalog") (h4 : s ≠ "databricks.schema") :
    (db.set_option .uri (.string v)).1 = .ok () ∧
      (db.set_option (.other "databricks.http_path") (.string v)).1 = .ok () ∧
      (db.set_option (.other "databricks.access_token") (.string v)).1
        = .ok () ∧
      (db.set_option (.other "databricks.catalog") (.string v)).1 = .ok () ∧
      (db.set_option (.other "databricks.schema") (.string v)).1 = .ok () ∧
      (db.set_option (.other s) value).1 = .error (.setUnknownOption s) ∧
      (db.set_option .username value).1 = .error (.setUnknownOption "username") ∧
      (db.set_option .password value).1
        = .error (.setUnknownOption "password") := by
  refine ⟨rfl, rfl, rfl, rfl, rfl, ?_, ?_, ?_⟩
  · simp [Database.set_option, h1, h2, h3, h4]
  · cases value <;> rfl
  · cases value <;> rfl

/-- Witness for `database_set_option_recognized` at a concrete database,
value and unrecognized key. -/
theorem database_set_option_recognized_witness :
    (Database.new.set_option .uri (.string "https://dbc.example")).1
        = .ok () ∧
      (Database.new.set_option (.other "databricks.http_path")
          (.string "https://dbc.example")).1 = .ok () ∧
      (Database.new.set_option (.other "databricks.access_token")
          (.string "https://dbc.example")).1 = .ok () ∧
      (Database.new.set_option (.other "databricks.catalog")
          (.string "https://dbc.example")).1 = .ok () ∧
      (Database.new.set_option (.other "databricks.schema")
          (.string "https://dbc.example")).1 = .ok () ∧
      (Database.new.set_option (.other "databricks.port") (.int 443)).1
        = .error (.setUnknownOption "databricks.port") ∧
      (Database.new.set_option .username (.int 443)).1
        = .error (.setUnknownOption "username") ∧
      (Database.new.set_option .password (.int 443)).1
        = .error (.setUnknownOption "password") :=
  database_set_option_recognized Database.new "https://dbc.example"
    "databricks.port" (.int 443) (by decide) (by decide) (by decide)
    (by decide)

/-- C9 — option set/get round-trip with a write-only credential: a
successful `set_option` of the URI, `databricks.http_path`,
`databricks.catalog` or `databricks.schema` key is read back verbatim by
`get_option_string`; `databricks.access_token` is accepted by `set_option`
but `get_option_string` on it always errs — the credential cannot be read
back through the public interface. -/
theorem database_option_roundtrip_credential_write_only (db : Database)
    (v : String) :
    Database.get_option_string (db.set_option .uri (.string v)).2 .uri
        = .ok v ∧
      Database.get_option_string
          (db.set_option (.other "databricks.http_path") (.string v)).2
          (.other "databricks.http_path") = .ok v ∧
      Database.get_option_string
          (db.set_option (.other "databricks.catalog") (.string v)).2
          (.other "databricks.catalog") = .ok v ∧
      Database.get_option_string
          (db.set_option (.other "databricks.schema") (.string v)).2
          (.other "databricks.schema") = .ok v ∧
      (db.set_option (.other "databricks.access_token") (.string v)).1
        = .ok () ∧
      Database.get_option_string
          (db.set_option (.other "databricks.access_token") (.string v)).2
          (.other "databricks.access_token")
        = .error (.getUnknownOption "databricks.access_token") :=
  ⟨rfl, rfl, rfl, rfl, rfl, rfl⟩

/-! ## `src/rust/src/auth/` — auth providers

`PersonalAccessToken::get_auth_header` formats `"Bearer {token}"`;
`OAuthCredentials::get_auth_header` is the stubbed `not_implemented`
error (token fetching is the `TODO`). -/

structure PersonalAccessToken : Type where
  token : String
  deriving Repr, DecidableEq

/-- `PersonalAccessToken::new(token)`. -/
def PersonalAccessToken.new (token : String) : PersonalAccessToken :=
  { token := token }

/-- `PersonalAccessToken::get_auth_header`. -/
def PersonalAccessToken.get_auth_header (pat : PersonalAccessToken) :
    DResult String :=
  .ok ("Bearer " ++ pat.token)

structure OAuthCredentials : Type where
  client_id : String
  client_secret : String
  token_endpoint : Option String
  deriving Repr, DecidableEq

/-- `OAuthCredentials::new(client_id, client_secret)`. -/
def OAuthCredentials.new (client_id client_secret : String) :
    OAuthCredentials :=
  { client_id := client_id, client_secret := client_secret,
    token_endpoint := none }

/-- `OAuthCredentials::with_token_endpoint`. -/
def OAuthCredentials.with_token_endpoint (o : OAuthCredentials)
    (endpoint : String) : OAuthCredentials :=
  { o with token_endpoint := some endpoint }

/-- `OAuthCredentials::get_auth_header`. -/
def OAuthCredentials.get_auth_header (_o : OAuthCredentials) :
    DResult String :=
  .error (.notImplemented "OAuth token fetching not yet implemented")

/-- C10 — only the personal access token produces an authorization
header: for every token `t` the PAT provider returns
`Ok("Bearer " ++ t)`, while every `OAuthCredentials` value (any client
id, secret and token endpoint) gets the `NotImplemented` error. -/
theorem auth_header_pat_only (t : String) (o : OAuthCredentials) :
    (PersonalAccessToken.new t).get_auth_header = .ok ("Bearer " ++ t) ∧
      isNotImplementedError o.get_auth_header = true :=
  ⟨rfl, rfl⟩
